import Mathlib

/-!
Verification of the dspy-prompt-optimizer repository against its
natural-language specification.

The development shallowly embeds the Python sources:

* `src/prompt_optimizer/optimizer/metric_based.py` — the metric-based
  optimization loop (`MetricBasedOptimizer`), embedded with explicit
  oracle streams for the external Generator and Evaluator roles and a
  call trace recording the inputs of every external call;
* `src/prompt_optimizer/optimizer/base.py` — the strategy base class
  construction path (`PromptOptimizer.__post_init__` / `_setup_dspy`);
* `src/prompt_optimizer/optimizer/example_based/generator.py` and
  `src/prompt_optimizer/optimizer/example_based/optimizer.py` — example
  loading, saving and source precedence;
* `src/prompt_optimizer/cli.py` and `src/prompt_optimizer/cli/common.py`
  — prompt input reading.

External effects (LLM calls, file IO) are modelled as explicit data: the
Generator and Evaluator are streams indexed by call number, a JSON file
is its parsed JSON value, and Python exceptions are `Except.error`.
-/

namespace PromptOptimizer

/-- Embeds the payload returned by the Evaluator role
(`dspy.ChainOfThought` over the `PromptEvaluator` signature in
`metric_based.py`): only the `total_score` and `feedback` output fields
are consumed by the loop. The score arrives as a string and is parsed
with Python `int(...)`. -/
structure DSPyResult where
  total_score : String
  feedback : String
  deriving DecidableEq, Repr

/-- Oracle streams standing for the external LLM service: the response
of the k-th Generator call and the k-th Evaluator call of one
`optimize` run. The source treats both as opaque external collaborators
with no guaranteed determinism, so responses are indexed by call number
rather than by input. -/
structure OracleEnv where
  genResponses : Nat → String
  evalResponses : Nat → DSPyResult

/-- Instrumentation: the inputs passed to the Generator and to the
Evaluator, in call order. The lengths give the call counts. -/
structure CallTrace where
  genCalls : List String
  evalCalls : List String
  deriving DecidableEq, Repr

/-- Embeds the whitespace class Python strips around `int` literals and
in `str.strip()`. -/
def isPySpace (c : Char) : Bool :=
  c = ' ' || c = '\t' || c = '\n' || c = '\r' || c = '\x0b' || c = '\x0c'

/-- Helper: strip `isPySpace` characters from both ends of a character
list, as Python `str.strip()` does. -/
def stripChars (cs : List Char) : List Char :=
  ((cs.dropWhile isPySpace).reverse.dropWhile isPySpace).reverse

/-- Helper: read a non-empty run of decimal digits as a natural number,
failing on any non-digit. -/
def parseDigits : List Char → Nat → Option Nat
  | [], acc => some acc
  | c :: cs, acc =>
      if c.isDigit then parseDigits cs (acc * 10 + (c.toNat - 48))
      else none

/-- Embeds Python `int(s)` applied to the `total_score` string, the only
parse the loop performs (`metric_based.py`, `_evaluate_and_log_prompt`):
optional surrounding whitespace, an optional sign, then one or more
decimal digits; anything else raises `ValueError`. Underscore grouping
and non-ASCII digits, which CPython also accepts, are not modelled. -/
def parseTotalScore (s : String) : Option Int :=
  match stripChars s.data with
  | [] => none
  | '-' :: cs =>
      match cs with
      | [] => none
      | _ => (parseDigits cs 0).map fun n => -(n : Int)
  | '+' :: cs =>
      match cs with
      | [] => none
      | _ => (parseDigits cs 0).map fun n => (n : Int)
  | cs => (parseDigits cs 0).map fun n => (n : Int)

/-- Embeds `MetricBasedOptimizer._evaluate_prompt`: one Evaluator call.
The response is the next element of the Evaluator stream; the trace
records the prompt that was passed. -/
def evaluatePromptCall (env : OracleEnv) (tr : CallTrace) (prompt : String) :
    DSPyResult × CallTrace :=
  (env.evalResponses tr.evalCalls.length,
    { tr with evalCalls := tr.evalCalls ++ [prompt] })

/-- Embeds `MetricBasedOptimizer._generate_prompt`: one Generator call
returning the `improved_prompt` output field. The trace records the
prompt that was passed. -/
def generatePromptCall (env : OracleEnv) (tr : CallTrace) (prompt : String) :
    String × CallTrace :=
  (env.genResponses tr.genCalls.length,
    { tr with genCalls := tr.genCalls ++ [prompt] })

/-- Embeds `MetricBasedOptimizer._evaluate_and_log_prompt`: evaluate a
prompt, then `int(evaluation.total_score)`. A non-integer total score
raises `ValueError` (the MalformedModelOutput condition of the spec),
modelled as `Except.error`; logging is observational only and omitted. -/
def evaluateAndLogPrompt (env : OracleEnv) (tr : CallTrace) (prompt : String) :
    Except String (Int × CallTrace) :=
  let r := evaluatePromptCall env tr prompt
  match parseTotalScore r.1.total_score with
  | some score => .ok (score, r.2)
  | none => .error ("invalid literal for int(): " ++ r.1.total_score)

/-- Embeds `MetricBasedOptimizer._update_best_if_improved`: the
candidate replaces the incumbent only on a strictly greater score. -/
def updateBestIfImproved (candidate_prompt : String) (candidate_score : Int)
    (best_prompt : String) (best_score : Int) : String × Int :=
  if candidate_score > best_score then (candidate_prompt, candidate_score)
  else (best_prompt, best_score)

/-- Embeds `MetricBasedOptimizer._process_optimization_iteration`:
generate a candidate from the current best, evaluate it, and update the
best pair via `updateBestIfImproved`. The iteration index of the source
is used only in log labels and is omitted. -/
def processOptimizationIteration (env : OracleEnv) (tr : CallTrace)
    (best_prompt : String) (best_score : Int) :
    Except String (String × Int × CallTrace) :=
  let g := generatePromptCall env tr best_prompt
  match evaluateAndLogPrompt env g.2 g.1 with
  | .error e => .error e
  | .ok (candidate_score, tr2) =>
      let b := updateBestIfImproved g.1 candidate_score best_prompt best_score
      .ok (b.1, b.2, tr2)

/-- Embeds `MetricBasedOptimizer._run_optimization_loop`: run
`max_iterations` iterations starting from the seed pair. The source
returns only the best prompt; the best score and the call trace are kept
here as instrumentation of the same loop state. -/
def runOptimizationLoop (env : OracleEnv) :
    Nat → CallTrace → String → Int → Except String (String × Int × CallTrace)
  | 0, tr, best_prompt, best_score => .ok (best_prompt, best_score, tr)
  | n + 1, tr, best_prompt, best_score =>
      match processOptimizationIteration env tr best_prompt best_score with
      | .error e => .error e
      | .ok (b, s, tr2) => runOptimizationLoop env n tr2 b s

/-- Embeds `MetricBasedOptimizer.optimize` with the loop state exposed:
evaluate the seed prompt, then run the loop. Returns the final best
prompt, its tracked best score, and the call trace. -/
def optimizeWithScore (env : OracleEnv) (max_iterations : Nat)
    (prompt_text : String) : Except String (String × Int × CallTrace) :=
  match evaluateAndLogPrompt env ⟨[], []⟩ prompt_text with
  | .error e => .error e
  | .ok (initial_score, tr) =>
      runOptimizationLoop env max_iterations tr prompt_text initial_score

/-- Embeds `MetricBasedOptimizer.optimize` as the source exposes it: the
returned value is the best prompt (with the call trace kept for the
call-count properties); the internal best score is dropped. -/
def optimize (env : OracleEnv) (max_iterations : Nat) (prompt_text : String) :
    Except String (String × CallTrace) :=
  (optimizeWithScore env max_iterations prompt_text).map fun r => (r.1, r.2.2)

/-- Embeds the `dspy.LM` handle constructed in
`PromptOptimizer._setup_dspy` (`base.py`): the constructor arguments are
stored; the in-repo `dspy` stub performs no validation and no IO. -/
structure LM where
  model : String
  provider : String
  api_key : String
  max_tokens : Int
  deriving DecidableEq, Repr

/-- Embeds `PromptOptimizer.__post_init__` / `_setup_dspy` (`base.py`),
the construction path shared by the self, example and metric strategy
classes. The source builds the `dspy.LM` handle and registers it; it
contains no check of `model` or `api_key`, so no exception path exists
and the result is always `Except.ok` (the docstring of `_setup_dspy`
claims `ValueError` on an empty `api_key`, but no such check appears in
the code). -/
def promptOptimizerPostInit (model : String) ( api_key : String)
    (max_tokens : Int) : Except String LM :=
  .ok ⟨model, "anthropic", api_key, max_tokens⟩

/-- Embeds `ExampleGenerator.__post_init__`
(`example_based/generator.py`), the one constructor in the repository
that does validate: empty model, empty api_key, or non-positive
`num_examples`/`max_tokens` raise `ValueError` before the `dspy.LM`
handle is built. -/
def exampleGeneratorPostInit (model : String) ( api_key : String)
    (num_examples : Int) (max_tokens : Int) : Except String LM :=
  if model = "" then .error "model cannot be empty"
  else if api_key = "" then .error "api_key cannot be empty"
  else if num_examples ≤ 0 ∨ max_tokens ≤ 0 then
    .error "num_examples and max_tokens must be positive"
  else .ok ⟨model, "anthropic", api_key, max_tokens⟩

/-- Embeds `read_input_prompt` (`cli/common.py`): the prompt text is
stripped (`str.strip()`) and returned; there is no emptiness check on
this path. -/
def read_input_prompt (text : String) : String :=
  ⟨stripChars text.data⟩

/-- Embeds `_read_prompt` of the legacy flat CLI module
(`src/prompt_optimizer/cli.py`): the stripped text is returned when
non-empty, otherwise `ValueError("Input prompt cannot be empty")` is
raised. -/
def cliReadPrompt (text : String) : Except String String :=
  let t : String := ⟨stripChars text.data⟩
  if t ≠ "" then .ok t else .error "Input prompt cannot be empty"

end PromptOptimizer

namespace ExampleBased

/-- Embeds a parsed JSON value, the result of Python `json.loads` on the
text of an examples file. Integer numerics suffice for this development;
duplicate object keys are resolved last-wins, as `json.loads` does. -/
inductive Json where
  | null : Json
  | bool (b : Bool) : Json
  | num (n : Int) : Json
  | str (s : String) : Json
  | arr (items : List Json) : Json
  | obj (fields : List (String × Json)) : Json

/-- Embeds Python `repr` on a parsed JSON value (used by `str` on
composite values): strings quote, lists bracket, dicts brace. Escape
sequences inside quoted strings are not reproduced; no theorem in this
development evaluates it on a composite value. -/
def pyRepr : Json → String
  | .null => "None"
  | .bool true => "True"
  | .bool false => "False"
  | .num n => toString n
  | .str s => "'" ++ s ++ "'"
  | .arr items =>
      "[" ++ String.intercalate ", " (items.attach.map fun j => pyRepr j.1) ++ "]"
  | .obj fields =>
      "\x7b" ++
        String.intercalate ", "
          (fields.attach.map fun kv => "'" ++ kv.1.1 ++ "': " ++ pyRepr kv.1.2) ++
      "\x7d"
  termination_by j => sizeOf j
  decreasing_by
  · have h1 : sizeOf j.1 < sizeOf items := List.sizeOf_lt_of_mem j.2
    simp only [Json.arr.sizeOf_spec]
    omega
  · have h1 : sizeOf kv.1 < sizeOf fields := List.sizeOf_lt_of_mem kv.2
    have h2 : sizeOf kv.1.2 < sizeOf kv.1 := by
      obtain ⟨⟨k, v⟩, hm⟩ := kv
      simp only [Prod.mk.sizeOf_spec]
      omega
    simp only [Json.obj.sizeOf_spec]
    omega

/-- Embeds Python `str` applied to a parsed JSON value, as in
`str(item.get("prompt", ""))`: a string is itself, anything else renders
through `repr`. -/
def pyStr : Json → String
  | .str s => s
  | j => pyRepr j

/-- Embeds `dict.get(key, default)` on a dict produced by `json.loads`:
duplicate keys in the JSON text collapse last-wins, hence the reversed
lookup. -/
def dictGet (fields : List (String × Json)) (key : String) : Option Json :=
  fields.reverse.lookup key

/-- Embeds `str(item.get(key, ""))` from `_load_examples_from_file`
(`example_based/optimizer.py`): a missing key yields the empty string,
a present value is rendered with `str`. -/
def getStrField (fields : List (String × Json)) (key : String) : String :=
  match dictGet fields key with
  | some v => pyStr v
  | none => ""

/-- Modelled from the spec: `dspy.Example` is a third-party class (the
in-repo `src/dspy/__init__.py` is an explicit no-op test stub that
stores nothing); the data model of the spec defines an Example as a
triple (original prompt, analysis text, improved prompt), stored as the
keyword fields of the object. -/
structure Example where
  prompt : String
  analysis : String
  improved_prompt : String
  deriving DecidableEq, Repr

/-- Embeds `_load_examples_from_file` (`example_based/optimizer.py`)
acting on the parsed JSON content of the file: a non-list raises
`ValueError("Examples file must contain a list of objects")`; list
elements are read with `item.get`, every missing field defaulting to the
empty string (no field validation occurs); a non-dict element raises
`AttributeError` from `item.get`. -/
def load_examples_from_file (content : Json) : Except String (List Example) :=
  match content with
  | .arr items =>
      items.mapM fun item =>
        match item with
        | .obj fields =>
            .ok { prompt := getStrField fields "prompt",
                  analysis := getStrField fields "analysis",
                  improved_prompt := getStrField fields "improved_prompt" }
        | _ => .error "AttributeError: object has no attribute get"
  | _ => .error "Examples file must contain a list of objects"

/-- Embeds `dspy.Example(**{str(k): str(v) for k, v in item.items()})`
from `ExampleGenerator._create_examples_from_items`: the keyword
arguments become the fields of the Example (the spec-modelled triple
keeps the three declared fields; a missing keyword leaves the field
empty). -/
def exampleOfKwargs (kwargs : List (String × String)) : Example :=
  { prompt := (kwargs.reverse.lookup "prompt").getD "",
    analysis := (kwargs.reverse.lookup "analysis").getD "",
    improved_prompt := (kwargs.reverse.lookup "improved_prompt").getD "" }

/-- Embeds `ExampleGenerator.load_examples` / `_load_json_file` /
`_validate_json_structure` / `_create_examples_from_items`
(`example_based/generator.py`) acting on the parsed JSON content of the
file: a non-list raises `ValueError`; each dict element is converted via
`Example(**{str(k): str(v) ...})`; a non-dict element raises
`AttributeError` from `item.items()`. -/
def load_examples (content : Json) : Except String (List Example) :=
  match content with
  | .arr items =>
      items.mapM fun item =>
        match item with
        | .obj fields =>
            .ok (exampleOfKwargs (fields.map fun kv => (kv.1, pyStr kv.2)))
        | _ => .error "AttributeError: object has no attribute items"
  | _ => .error "Invalid JSON format: expected list"

/-- Embeds `ExampleGenerator.save_examples`
(`example_based/generator.py`): `json.dumps([ex.__dict__ for ex in
examples])`, modelled at the JSON-value level; the `__dict__` of a
spec-modelled Example holds exactly its three string fields in
declaration order. -/
def save_examples (examples : List Example) : Json :=
  .arr (examples.map fun ex =>
    .obj [("prompt", .str ex.prompt),
          ("analysis", .str ex.analysis),
          ("improved_prompt", .str ex.improved_prompt)])

/-- Embeds `ExampleBasedOptimizer._initialize_examples`
(`example_based/optimizer.py`) with effect instrumentation: the explicit
`examples` list wins when it is not `None` (an is-not-None test, so the
empty list counts); otherwise a not-None `examples_file` (given here as
its parsed JSON content) is loaded; otherwise `_generate_examples` runs
(its result given as the `generated` oracle). The two booleans record
whether the file was read and whether generation was invoked. -/
def initialize_examples (examples : Option (List Example))
    (examples_file : Option Json) (generated : List Example) :
    Except String (List Example × Bool × Bool) :=
  match examples with
  | some es => .ok (es, false, false)
  | none =>
      match examples_file with
      | some content =>
          match load_examples_from_file content with
          | .ok es => .ok (es, true, false)
          | .error e => .error e
      | none => .ok (generated, false, true)

end ExampleBased

namespace PromptOptimizer

/-- Concrete oracle stub: every Evaluator call answers score "5", every
Generator call answers "g". -/
def envConst : OracleEnv :=
  ⟨fun _ => "g", fun _ => ⟨"5", "fb"⟩⟩

/-- Concrete oracle stub: the seed evaluation scores 5 and every later
evaluation scores 15; Generator calls answer "g0", "g1", ... -/
def envRising : OracleEnv :=
  ⟨fun k => "g" ++ toString k, fun k => ⟨if k = 0 then "5" else "15", "fb"⟩⟩

/-- Concrete oracle stub: the Evaluator answers "5" except on call 1,
where the total score is the non-numeric string "oops". -/
def envBad : OracleEnv :=
  ⟨fun _ => "g", fun k => ⟨if k = 1 then "oops" else "5", "fb"⟩⟩

/-- Helper: when the score at the next Evaluator index parses, the
iteration succeeds with the selection made by `updateBestIfImproved`. -/
lemma processIteration_ok_of_parse (env : OracleEnv) (tr : CallTrace)
    (b : String) (bs : Int) (cs : Int)
    (h : parseTotalScore (env.evalResponses tr.evalCalls.length).total_score
        = some cs) :
    processOptimizationIteration env tr b bs =
      .ok ((updateBestIfImproved (env.genResponses tr.genCalls.length) cs b bs).1,
           (updateBestIfImproved (env.genResponses tr.genCalls.length) cs b bs).2,
           ⟨tr.genCalls ++ [b],
            tr.evalCalls ++ [env.genResponses tr.genCalls.length]⟩) := by
  simp only [processOptimizationIteration, evaluateAndLogPrompt,
    evaluatePromptCall, generatePromptCall]
  simp only [h]

/-- Helper: when the score at the next Evaluator index does not parse,
the iteration raises the `ValueError` message of Python `int`. -/
lemma processIteration_error_of_parse (env : OracleEnv) (tr : CallTrace)
    (b : String) (bs : Int)
    (h : parseTotalScore (env.evalResponses tr.evalCalls.length).total_score
        = none) :
    processOptimizationIteration env tr b bs =
      .error ("invalid literal for int(): "
        ++ (env.evalResponses tr.evalCalls.length).total_score) := by
  simp only [processOptimizationIteration, evaluateAndLogPrompt,
    evaluatePromptCall, generatePromptCall]
  simp only [h]

/-- Helper: a succeeding iteration parses the score at the next
Evaluator index, extends the generator trace with the incumbent best,
extends the evaluator trace with the generated candidate, and keeps or
replaces the best pair according to the strict comparison. -/
lemma processIteration_ok_inv (env : OracleEnv) (tr : CallTrace) (b : String)
    (bs : Int) (b2 : String) (s2 : Int) (tr2 : CallTrace)
    (h : processOptimizationIteration env tr b bs = .ok (b2, s2, tr2)) :
    ∃ cs, parseTotalScore (env.evalResponses tr.evalCalls.length).total_score
        = some cs ∧
      tr2.genCalls = tr.genCalls ++ [b] ∧
      tr2.evalCalls = tr.evalCalls ++ [env.genResponses tr.genCalls.length] ∧
      ((bs < cs ∧ b2 = env.genResponses tr.genCalls.length ∧ s2 = cs) ∨
       (cs ≤ bs ∧ b2 = b ∧ s2 = bs)) := by
  rcases heq : parseTotalScore (env.evalResponses tr.evalCalls.length).total_score
    with _ | cs
  · rw [processIteration_error_of_parse env tr b bs heq] at h
    exact absurd h (by simp)
  · rw [processIteration_ok_of_parse env tr b bs cs heq] at h
    simp only [Except.ok.injEq, Prod.mk.injEq] at h
    obtain ⟨h1, h2, h3⟩ := h
    subst h3
    refine ⟨cs, rfl, rfl, rfl, ?_⟩
    by_cases hgt : bs < cs
    · simp only [updateBestIfImproved, gt_iff_lt, hgt, if_true] at h1 h2
      exact Or.inl ⟨hgt, h1.symm, h2.symm⟩
    · simp only [updateBestIfImproved, gt_iff_lt, hgt, if_false] at h1 h2
      exact Or.inr ⟨le_of_not_lt hgt, h1.symm, h2.symm⟩

/-- Helper: the tracked best score never decreases across a run of the
loop. -/
lemma runLoop_score_mono (env : OracleEnv) :
    ∀ (n : Nat) (tr : CallTrace) (b : String) (bs : Int) (bp : String)
      (fs : Int) (tr' : CallTrace),
      runOptimizationLoop env n tr b bs = .ok (bp, fs, tr') → bs ≤ fs := by
  intro n
  induction n with
  | zero =>
    intro tr b bs bp fs tr' h
    simp only [runOptimizationLoop, Except.ok.injEq, Prod.mk.injEq] at h
    exact le_of_eq h.2.1
  | succ n ih =>
    intro tr b bs bp fs tr' h
    rw [runOptimizationLoop] at h
    rcases hp : processOptimizationIteration env tr b bs with e | ⟨b2, s2, tr2⟩
    · rw [hp] at h; exact absurd h (by simp)
    · rw [hp] at h
      have h2 := ih tr2 b2 s2 bp fs tr' h
      obtain ⟨cs, _, _, _, hsel⟩ := processIteration_ok_inv env tr b bs b2 s2 tr2 hp
      rcases hsel with ⟨hlt, _, hs⟩ | ⟨_, _, hs⟩ <;> omega

/-- Helper: a succeeding run of `n` iterations makes exactly `n`
Generator calls and `n` Evaluator calls beyond the incoming trace. -/
lemma runLoop_counts (env : OracleEnv) :
    ∀ (n : Nat) (tr : CallTrace) (b : String) (bs : Int) (bp : String)
      (fs : Int) (tr' : CallTrace),
      runOptimizationLoop env n tr b bs = .ok (bp, fs, tr') →
      tr'.genCalls.length = tr.genCalls.length + n ∧
      tr'.evalCalls.length = tr.evalCalls.length + n := by
  intro n
  induction n with
  | zero =>
    intro tr b bs bp fs tr' h
    simp only [runOptimizationLoop, Except.ok.injEq, Prod.mk.injEq] at h
    obtain ⟨_, _, h3⟩ := h
    subst h3
    omega
  | succ n ih =>
    intro tr b bs bp fs tr' h
    rw [runOptimizationLoop] at h
    rcases hp : processOptimizationIteration env tr b bs with e | ⟨b2, s2, tr2⟩
    · rw [hp] at h; exact absurd h (by simp)
    · rw [hp] at h
      have h2 := ih tr2 b2 s2 bp fs tr' h
      obtain ⟨cs, _, hg, he, _⟩ := processIteration_ok_inv env tr b bs b2 s2 tr2 hp
      rw [hg, he] at h2
      simp only [List.length_append, List.length_singleton] at h2
      omega

/-- Helper: when every Evaluator response consumed by the remaining
iterations parses, the loop succeeds. -/
lemma runLoop_ok_of_parseable (env : OracleEnv) :
    ∀ (n : Nat) (tr : CallTrace) (b : String) (bs : Int),
      (∀ k, tr.evalCalls.length ≤ k → k < tr.evalCalls.length + n →
        (parseTotalScore (env.evalResponses k).total_score).isSome) →
      ∃ bp fs tr', runOptimizationLoop env n tr b bs = .ok (bp, fs, tr') := by
  intro n
  induction n with
  | zero =>
    intro tr b bs _
    exact ⟨b, bs, tr, rfl⟩
  | succ n ih =>
    intro tr b bs hpars
    have h0 : (parseTotalScore
        (env.evalResponses tr.evalCalls.length).total_score).isSome :=
      hpars tr.evalCalls.length le_rfl (by omega)
    obtain ⟨cs, hcs⟩ := Option.isSome_iff_exists.mp h0
    have hstep := processIteration_ok_of_parse env tr b bs cs hcs
    set tr2 : CallTrace :=
      ⟨tr.genCalls ++ [b],
       tr.evalCalls ++ [env.genResponses tr.genCalls.length]⟩ with htr2
    have hlen : tr2.evalCalls.length = tr.evalCalls.length + 1 := by
      simp [htr2]
    obtain ⟨bp, fs, tr', hrec⟩ :=
      ih tr2 (updateBestIfImproved (env.genResponses tr.genCalls.length) cs b bs).1
        (updateBestIfImproved (env.genResponses tr.genCalls.length) cs b bs).2
        (by
          intro k hk1 hk2
          rw [hlen] at hk1 hk2
          exact hpars k (by omega) (by omega))
    refine ⟨bp, fs, tr', ?_⟩
    rw [runOptimizationLoop, hstep]
    exact hrec

/-- Helper: when the Evaluator response at index `j` does not parse and
every response before it (within the remaining budget) does, the loop
raises the `ValueError` of Python `int` for index `j`. -/
lemma runLoop_error_at (env : OracleEnv) :
    ∀ (n : Nat) (tr : CallTrace) (b : String) (bs : Int) (j : Nat),
      tr.evalCalls.length ≤ j → j < tr.evalCalls.length + n →
      (∀ k, tr.evalCalls.length ≤ k → k < j →
        (parseTotalScore (env.evalResponses k).total_score).isSome) →
      parseTotalScore (env.evalResponses j).total_score = none →
      runOptimizationLoop env n tr b bs =
        .error ("invalid literal for int(): "
          ++ (env.evalResponses j).total_score) := by
  intro n
  induction n with
  | zero =>
    intro tr b bs j h1 h2 _ _
    omega
  | succ n ih =>
    intro tr b bs j h1 h2 hbefore hfail
    by_cases hj : j = tr.evalCalls.length
    · subst hj
      rw [runOptimizationLoop, processIteration_error_of_parse env tr b bs hfail]
    · have h0 : (parseTotalScore
          (env.evalResponses tr.evalCalls.length).total_score).isSome :=
        hbefore tr.evalCalls.length le_rfl (by omega)
      obtain ⟨cs, hcs⟩ := Option.isSome_iff_exists.mp h0
      rw [runOptimizationLoop, processIteration_ok_of_parse env tr b bs cs hcs]
      have hlen : (tr.evalCalls ++ [env.genResponses tr.genCalls.length]).length
          = tr.evalCalls.length + 1 := by simp
      exact ih _ _ _ j (by simp [hlen]; omega) (by simp [hlen]; omega)
        (by intro k hk1 hk2; rw [hlen] at hk1; exact hbefore k (by omega) hk2)
        hfail

/-- Helper: when every Evaluator response carries the same parseable
score string, no candidate ever strictly improves on it and the loop
returns its incoming best pair unchanged. -/
lemma runLoop_const_score (env : OracleEnv) (s : String) (v : Int)
    (hall : ∀ k, (env.evalResponses k).total_score = s)
    (hv : parseTotalScore s = some v) :
    ∀ (n : Nat) (tr : CallTrace) (p : String),
      ∃ tr', runOptimizationLoop env n tr p v = .ok (p, v, tr') := by
  intro n
  induction n with
  | zero => exact fun tr p => ⟨tr, rfl⟩
  | succ n ih =>
    intro tr p
    have hcs : parseTotalScore
        (env.evalResponses tr.evalCalls.length).total_score = some v := by
      rw [hall]; exact hv
    obtain ⟨tr', hrec⟩ := ih
      ⟨tr.genCalls ++ [p], tr.evalCalls ++ [env.genResponses tr.genCalls.length]⟩ p
    refine ⟨tr', ?_⟩
    rw [runOptimizationLoop, processIteration_ok_of_parse env tr p v v hcs]
    have hsel : updateBestIfImproved (env.genResponses tr.genCalls.length) v p v
        = (p, v) := by
      simp [updateBestIfImproved]
    rw [hsel]
    exact hrec

/-- Helper: the seed evaluation of `optimizeWithScore` consumes
Evaluator index 0 and hands the loop a trace with one Evaluator call
recorded. -/
lemma optimizeWithScore_eq_of_seed (env : OracleEnv) (N : Nat) (p : String)
    (s0 : Int)
    (h0 : parseTotalScore (env.evalResponses 0).total_score = some s0) :
    optimizeWithScore env N p = runOptimizationLoop env N ⟨[], [p]⟩ p s0 := by
  simp only [optimizeWithScore, evaluateAndLogPrompt, evaluatePromptCall,
    List.length_nil]
  simp only [h0, List.nil_append]

/-- Helper: when the seed response and every response consumed by the
loop parse, `optimize` succeeds with exactly `N` Generator calls and
`N + 1` Evaluator calls recorded. -/
lemma optimize_ok_counts_of_parseable (env : OracleEnv) (N : Nat) (p : String)
    (hpars : ∀ k, k < N + 1 →
      (parseTotalScore (env.evalResponses k).total_score).isSome) :
    ∃ bp tr, optimize env N p = .ok (bp, tr) ∧
      tr.genCalls.length = N ∧ tr.evalCalls.length = N + 1 := by
  obtain ⟨s0, h0⟩ := Option.isSome_iff_exists.mp (hpars 0 (by omega))
  obtain ⟨bp, fs, tr', hloop⟩ := runLoop_ok_of_parseable env N ⟨[], [p]⟩ p s0
    (by
      intro k hk1 hk2
      simp only [List.length_singleton] at hk1 hk2
      exact hpars k (by omega))
  have hcounts := runLoop_counts env N ⟨[], [p]⟩ p s0 bp fs tr' hloop
  simp only [List.length_nil, List.length_singleton] at hcounts
  refine ⟨bp, tr', ?_, by omega, by omega⟩
  rw [optimize, optimizeWithScore_eq_of_seed env N p s0 h0, hloop]
  rfl

end PromptOptimizer

open PromptOptimizer ExampleBased

/-- C1: for every non-empty initial prompt, every iteration budget
N ≥ 1 and every Evaluator response stream, whenever
`MetricBasedOptimizer.optimize` completes (all consumed scores parsed as
integers), the tracked score of the returned best prompt is greater than
or equal to the seed evaluation score of the initial prompt: the
best-so-far score is monotonically non-decreasing across iterations. -/
theorem metric_optimize_monotone_improvement (env : OracleEnv) (N : Nat)
    (p bp : String) (bs s0 : Int) (tr : CallTrace)
    (_hp : p ≠ "") (_hN : 1 ≤ N)
    (h0 : parseTotalScore (env.evalResponses 0).total_score = some s0)
    (h : optimizeWithScore env N p = .ok (bp, bs, tr)) :
    s0 ≤ bs := by
  rw [optimizeWithScore_eq_of_seed env N p s0 h0] at h
  exact runLoop_score_mono env N ⟨[], [p]⟩ p s0 bp bs tr h

/-- Witness for C1 at the constant-score stub: seed score 5, one
iteration, returned score 5 ≥ 5. -/
theorem metric_optimize_monotone_improvement_witness :
    (("a" : String) ≠ "" ∧ 1 ≤ 1 ∧
      parseTotalScore (envConst.evalResponses 0).total_score = some 5 ∧
      optimizeWithScore envConst 1 "a"
        = .ok ("a", 5, ⟨["a"], ["a", "g"]⟩)) ∧ (5 : Int) ≤ 5 :=
  ⟨⟨by decide, by decide, rfl, rfl⟩,
    metric_optimize_monotone_improvement envConst 1 "a" "a" 5 5
      ⟨["a"], ["a", "g"]⟩ (by decide) (by decide) rfl rfl⟩

/-- C2: `_update_best_if_improved` replaces the incumbent only on a
strictly greater candidate score; consequently, when the Evaluator
returns the same parseable score on every call, `optimize` returns the
original seed prompt unchanged. -/
theorem metric_strict_improvement_tie_rejection :
    (∀ (c b : String) (cs bs : Int), cs ≤ bs →
      updateBestIfImproved c cs b bs = (b, bs)) ∧
    (∀ (env : OracleEnv) (p s : String) (v : Int) (N : Nat),
      (∀ k, (env.evalResponses k).total_score = s) →
      parseTotalScore s = some v →
      ∃ tr, optimize env N p = .ok (p, tr)) := by
  constructor
  · intro c b cs bs hle
    simp [updateBestIfImproved, not_lt.mpr hle]
  · intro env p s v N hall hv
    have h0 : parseTotalScore (env.evalResponses 0).total_score = some v := by
      rw [hall]; exact hv
    obtain ⟨tr', hloop⟩ := runLoop_const_score env s v hall hv N ⟨[], [p]⟩ p
    refine ⟨tr', ?_⟩
    rw [optimize, optimizeWithScore_eq_of_seed env N p v h0, hloop]
    rfl

/-- Witness for C2: a tie (5 against incumbent 5) keeps the incumbent,
and the constant-score stub over two iterations returns the seed. -/
theorem metric_strict_improvement_tie_rejection_witness :
    ((5 : Int) ≤ 5 ∧ updateBestIfImproved "c" 5 "b" 5 = ("b", 5)) ∧
    ((∀ k, (envConst.evalResponses k).total_score = "5") ∧
      parseTotalScore "5" = some 5 ∧
      ∃ tr, optimize envConst 2 "p" = .ok ("p", tr)) :=
  ⟨⟨by decide, metric_strict_improvement_tie_rejection.1 "c" "b" 5 5 (by decide)⟩,
    fun _ => rfl, rfl,
    metric_strict_improvement_tie_rejection.2 envConst "p" "5" 5 2
      (fun _ => rfl) rfl⟩

/-- C3: with iteration budget N ≥ 1 and every consumed Evaluator score
parseable, one `optimize` call invokes the Generator exactly N times and
the Evaluator exactly N + 1 times (one seed evaluation plus one per
iteration); the loop never exits early whatever the score stream. -/
theorem metric_optimize_exact_call_counts (env : OracleEnv) (N : Nat)
    (p : String) (_hN : 1 ≤ N)
    (hpars : ∀ k, k < N + 1 →
      (parseTotalScore (env.evalResponses k).total_score).isSome) :
    ∃ bp tr, optimize env N p = .ok (bp, tr) ∧
      tr.genCalls.length = N ∧ tr.evalCalls.length = N + 1 :=
  optimize_ok_counts_of_parseable env N p hpars

/-- Witness for C3 at the constant-score stub with N = 2: two Generator
calls and three Evaluator calls. -/
theorem metric_optimize_exact_call_counts_witness :
    (1 ≤ 2 ∧ (∀ k, k < 2 + 1 →
      (parseTotalScore (envConst.evalResponses k).total_score).isSome)) ∧
    (∃ bp tr, optimize envConst 2 "a" = .ok (bp, tr) ∧
      tr.genCalls.length = 2 ∧ tr.evalCalls.length = 2 + 1) :=
  ⟨⟨by decide, fun _ _ => rfl⟩,
    metric_optimize_exact_call_counts envConst 2 "a" (by decide)
      (fun _ _ => rfl)⟩

/-- C4: every loop step invokes the Generator with the incumbent
best-so-far prompt (the trace records exactly it), and the best prompt
handed to the next step is either that same incumbent (candidate
rejected) or the freshly generated candidate when its score strictly
improves — never a rejected candidate. -/
theorem metric_generator_conditions_on_best (env : OracleEnv) (n : Nat)
    (tr : CallTrace) (b bp : String) (bs fs : Int) (tr' : CallTrace)
    (h : runOptimizationLoop env (n + 1) tr b bs = .ok (bp, fs, tr')) :
    ∃ b2 s2 tr2, processOptimizationIteration env tr b bs = .ok (b2, s2, tr2) ∧
      tr2.genCalls = tr.genCalls ++ [b] ∧
      runOptimizationLoop env n tr2 b2 s2 = .ok (bp, fs, tr') ∧
      ((b2 = b ∧ s2 = bs) ∨
        (b2 = env.genResponses tr.genCalls.length ∧ bs < s2)) := by
  rw [runOptimizationLoop] at h
  rcases hp : processOptimizationIteration env tr b bs with e | ⟨b2, s2, tr2⟩
  · rw [hp] at h; exact absurd h (by simp)
  · rw [hp] at h
    obtain ⟨cs, _, hg, _, hsel⟩ :=
      processIteration_ok_inv env tr b bs b2 s2 tr2 hp
    refine ⟨b2, s2, tr2, rfl, hg, h, ?_⟩
    rcases hsel with ⟨hlt, hb, hs⟩ | ⟨_, hb, hs⟩
    · exact Or.inr ⟨hb, by omega⟩
    · exact Or.inl ⟨hb, hs⟩

/-- Witness for C4 at the constant-score stub: one step from incumbent
"a" records "a" as the Generator input and keeps "a" as best. -/
theorem metric_generator_conditions_on_best_witness :
    (runOptimizationLoop envConst 1 ⟨[], ["a"]⟩ "a" 5
      = .ok ("a", 5, ⟨["a"], ["a", "g"]⟩)) ∧
    (∃ b2 s2 tr2,
      processOptimizationIteration envConst ⟨[], ["a"]⟩ "a" 5
        = .ok (b2, s2, tr2) ∧
      tr2.genCalls = [] ++ ["a"] ∧
      runOptimizationLoop envConst 0 tr2 b2 s2
        = .ok ("a", 5, ⟨["a"], ["a", "g"]⟩) ∧
      ((b2 = "a" ∧ s2 = 5) ∨
        (b2 = envConst.genResponses ([] : List String).length ∧ 5 < s2))) :=
  ⟨rfl,
    metric_generator_conditions_on_best envConst 0 ⟨[], ["a"]⟩ "a" "a" 5 5
      ⟨["a"], ["a", "g"]⟩ rfl⟩

/-- C5: if the Evaluator response at some call index j within the run
(seed evaluation j = 0 or iteration j ≥ 1, j ≤ N) has a total score that
does not parse as an integer while all earlier responses do, `optimize`
raises the `ValueError` of Python `int` (the MalformedModelOutput
condition): the loop aborts and no prompt, not even the best-so-far, is
returned. -/
theorem metric_malformed_score_aborts (env : OracleEnv) (N : Nat) (p : String)
    (j : Nat) (hj : j ≤ N)
    (hbefore : ∀ k, k < j →
      (parseTotalScore (env.evalResponses k).total_score).isSome)
    (hfail : parseTotalScore (env.evalResponses j).total_score = none) :
    optimize env N p = .error ("invalid literal for int(): "
      ++ (env.evalResponses j).total_score) := by
  rcases j with _ | j
  · simp only [optimize, optimizeWithScore, evaluateAndLogPrompt,
      evaluatePromptCall, List.length_nil]
    simp only [hfail, Except.map]
  · obtain ⟨s0, h0⟩ := Option.isSome_iff_exists.mp (hbefore 0 (by omega))
    rw [optimize, optimizeWithScore_eq_of_seed env N p s0 h0,
      runLoop_error_at env N ⟨[], [p]⟩ p s0 (j + 1)
        (by simp) (by simp; omega)
        (by
          intro k hk1 hk2
          exact hbefore k hk2)
        hfail]
    rfl

/-- Witness for C5: with the stub whose second Evaluator response is
"oops", a three-iteration run aborts with the int parse error. -/
theorem metric_malformed_score_aborts_witness :
    (1 ≤ 3 ∧ parseTotalScore (envBad.evalResponses 1).total_score = none) ∧
    optimize envBad 3 "seed"
      = .error ("invalid literal for int(): "
          ++ (envBad.evalResponses 1).total_score) :=
  ⟨⟨by decide, rfl⟩,
    metric_malformed_score_aborts envBad 3 "seed" 1 (by decide)
      (fun k hk => by
        have hk0 : k = 0 := by omega
        subst hk0
        rfl)
      rfl⟩

/-- C6 counterexample: `MetricBasedOptimizer.optimize` applied to the
empty prompt does not raise any error and does call the external roles:
with a constant-score Evaluator stub and one iteration it returns the
empty seed prompt after one Generator call and two Evaluator calls,
refuting the claim that an `InvalidInput` error is raised before the
loop with zero Generator and Evaluator calls. -/
theorem metric_optimize_empty_prompt_counterexample :
    optimize envConst 1 "" = .ok ("", ⟨[""], ["", "g"]⟩) := rfl

/-- C6 as amended: `MetricBasedOptimizer.optimize` performs no
emptiness check: an empty or whitespace-only prompt is passed to the
seed evaluation and the loop runs normally with its full call counts.
The emptiness rejection exists only in the legacy flat CLI module,
whose `_read_prompt` raises `ValueError("Input prompt cannot be
empty")` on whitespace-only input before any optimizer work, while the
current CLI helper `read_input_prompt` merely strips. -/
theorem metric_optimize_no_empty_input_check :
    read_input_prompt "   " = "" ∧
    cliReadPrompt "   " = .error "Input prompt cannot be empty" ∧
    (∀ (env : OracleEnv) (N : Nat),
      (∀ k, k < N + 1 →
        (parseTotalScore (env.evalResponses k).total_score).isSome) →
      ∃ bp tr, optimize env N "" = .ok (bp, tr) ∧
        tr.genCalls.length = N ∧ tr.evalCalls.length = N + 1) :=
  ⟨rfl, rfl, fun env N h => optimize_ok_counts_of_parseable env N "" h⟩

/-- Witness for the amended C6 at the constant-score stub: the empty
prompt yields a successful run with one Generator and two Evaluator
calls. -/
theorem metric_optimize_no_empty_input_check_witness :
    (∀ k, k < 1 + 1 →
      (parseTotalScore (envConst.evalResponses k).total_score).isSome) ∧
    (∃ bp tr, optimize envConst 1 "" = .ok (bp, tr) ∧
      tr.genCalls.length = 1 ∧ tr.evalCalls.length = 1 + 1) :=
  ⟨fun _ _ => rfl,
    metric_optimize_no_empty_input_check.2.2 envConst 1 (fun _ _ => rfl)⟩

/-- C7: constructing a strategy object through the shared
`PromptOptimizer` base class with an empty credential or an empty model
identifier completes without any error — `_setup_dspy` contains no
validation, contradicting both its own docstring (which promises
`ValueError` on an empty `api_key`) and the spec. The only construction
path that does validate is `ExampleGenerator.__post_init__`, which is
not one of the three strategies. -/
theorem strategy_construction_skips_validation :
    promptOptimizerPostInit "claude-sonnet-4-20250514" "" 64000
      = .ok ⟨"claude-sonnet-4-20250514", "anthropic", "", 64000⟩ ∧
    promptOptimizerPostInit "" "" 64000 = .ok ⟨"", "anthropic", "", 64000⟩ ∧
    exampleGeneratorPostInit "" "sk-key" 3 8000
      = .error "model cannot be empty" ∧
    exampleGeneratorPostInit "claude-3-5-haiku-latest" "" 3 8000
      = .error "api_key cannot be empty" :=
  ⟨rfl, rfl, rfl, rfl⟩

/-- C8 counterexample: a JSON array whose single element is an object
with none of the required fields loads successfully as one Example with
all fields empty, refuting the claim that such a shape raises a
`MalformedExamplesFile` error rather than producing examples. -/
theorem load_examples_missing_fields_counterexample :
    load_examples_from_file (Json.arr [Json.obj []])
      = .ok [⟨"", "", ""⟩] := rfl

/-- C8 as amended: only the top-level shape is validated — JSON content
that is not an array raises `ValueError("Examples file must contain a
list of objects")` (the MalformedExamplesFile condition) — while array
elements are never checked for the required fields: every array of
objects loads successfully, each missing `prompt`/`analysis`/
`improved_prompt` field silently defaulting to the empty string. -/
theorem load_examples_shape_validation :
    (∀ j : Json, (∀ items, j ≠ Json.arr items) →
      load_examples_from_file j
        = .error "Examples file must contain a list of objects") ∧
    (∀ items : List (List (String × Json)),
      load_examples_from_file (Json.arr (items.map Json.obj))
        = .ok (items.map fun fields =>
            ⟨getStrField fields "prompt", getStrField fields "analysis",
             getStrField fields "improved_prompt"⟩)) := by
  constructor
  · intro j hj
    cases j with
    | arr items => exact absurd rfl (hj items)
    | null => rfl
    | bool b => rfl
    | num n => rfl
    | str s => rfl
    | obj fields => rfl
  · intro items
    induction items with
    | nil => rfl
    | cons fields rest ih =>
      simp only [List.map_cons, load_examples_from_file, List.mapM_cons] at ih ⊢
      rw [ih]
      rfl

/-- Witness for the amended C8: a bare string is rejected as a non-list,
and a two-element array of field-free and partial objects loads with
empty-string defaults. -/
theorem load_examples_shape_validation_witness :
    (∀ items, Json.str "oops" ≠ Json.arr items) ∧
    load_examples_from_file (Json.str "oops")
      = .error "Examples file must contain a list of objects" ∧
    load_examples_from_file
        (Json.arr (([[], [("prompt", Json.str "p")]] :
          List (List (String × Json))).map Json.obj))
      = .ok [⟨"", "", ""⟩, ⟨"p", "", ""⟩] :=
  ⟨fun _ h => Json.noConfusion h,
    load_examples_shape_validation.1 (Json.str "oops")
      (fun _ h => Json.noConfusion h),
    load_examples_shape_validation.2 [[], [("prompt", Json.str "p")]]⟩

/-- C9: saving a list of Examples with `save_examples` (which serializes
each Example's `__dict__`, i.e. its `prompt`/`analysis`/`improved_prompt`
string fields) and loading the result back with
`ExampleGenerator.load_examples` yields the same list: the same number
of Examples with identical field values, for every list of Examples and
in particular every list of three. -/
theorem save_load_examples_roundtrip (examples : List Example) :
    load_examples (save_examples examples) = .ok examples := by
  induction examples with
  | nil => rfl
  | cons ex rest ih =>
    simp only [save_examples, List.map_cons, load_examples,
      List.mapM_cons] at ih ⊢
    rw [ih]
    rfl

/-- C10: `_initialize_examples` decides the example source by an
is-not-None test, not by non-emptiness: a supplied in-memory list —
including the empty list — is returned as-is with neither a file read
nor a generation call; the file is consulted only when the explicit
list is None, and generation only when both are None. The two booleans
of the result record whether the file was read and whether generation
was invoked. -/
theorem examples_source_precedence :
    (∀ (es : List Example) (file : Option Json) (gen : List Example),
      initialize_examples (some es) file gen = .ok (es, false, false)) ∧
    (∀ (content : Json) (gen : List Example) (es : List Example),
      load_examples_from_file content = .ok es →
      initialize_examples none (some content) gen = .ok (es, true, false)) ∧
    (∀ gen : List Example,
      initialize_examples none none gen = .ok (gen, false, true)) := by
  refine ⟨fun es file gen => rfl, ?_, fun gen => rfl⟩
  intro content gen es h
  simp only [initialize_examples, h]

/-- Witness for C10: the empty explicit list wins over a present file,
a loadable file is used when the list is None, and generation runs only
when both are None. -/
theorem examples_source_precedence_witness :
    initialize_examples (some []) (some (Json.str "ignored")) [⟨"p", "a", "i"⟩]
      = .ok ([], false, false) ∧
    (load_examples_from_file (Json.arr []) = .ok [] ∧
      initialize_examples none (some (Json.arr [])) [⟨"p", "a", "i"⟩]
        = .ok ([], true, false)) ∧
    initialize_examples none none [⟨"p", "a", "i"⟩]
      = .ok ([⟨"p", "a", "i"⟩], false, true) :=
  ⟨examples_source_precedence.1 [] (some (Json.str "ignored")) [⟨"p", "a", "i"⟩],
    ⟨rfl, examples_source_precedence.2.1 (Json.arr []) [⟨"p", "a", "i"⟩] [] rfl⟩,
    examples_source_precedence.2.2 [⟨"p", "a", "i"⟩]⟩
